import Mathlib

/-! Verification of a Dev.to MCP server (server.py).

The Python handlers and formatters are shallowly embedded: JSON objects become
structures of optional fields, the network is abstracted as an explicit fetch
result passed to each handler, and the HTTP requests issued by the write
handlers are recorded as explicit values. -/

namespace DevTo

/-! ### String utilities at the character-list level -/

/-- Test whether the second list starts with the first (Boolean). -/
def pfx : List Char → List Char → Bool
  | [], _ => true
  | _ :: _, [] => false
  | a :: as, b :: bs => a == b && pfx as bs

/-- Model of the Python string operator "needle in hay": the first list occurs
as a contiguous substring of the second. -/
def occurs (needle : List Char) : List Char → Bool
  | [] => needle.isEmpty
  | c :: t => pfx needle (c :: t) || occurs needle t

/-- Split a character list at newline characters.  Always returns at least one
line; a trailing newline yields a trailing empty line. -/
def splitNl : List Char → List (List Char)
  | [] => [[]]
  | c :: t =>
    if c = '\n' then [] :: splitNl t
    else (c :: (splitNl t).headI) :: (splitNl t).tail

/-- The lines of a string, splitting at newline characters. -/
def linesOf (s : String) : List (List Char) :=
  splitNl s.data

/-- Number of lines of a string that begin with "##": its Markdown
second-level headings. -/
def headingCount (s : String) : Nat :=
  ((linesOf s).filter (fun l => pfx ['#', '#'] l)).length

/-- A string containing no newline character. -/
def nlFree (s : String) : Prop :=
  ∀ c ∈ s.data, c ≠ '\n'

instance (s : String) : Decidable (nlFree s) := by
  unfold nlFree; infer_instance

/-- Model of the Python str.lower applied to the characters of a string. -/
def lowerL (s : String) : List Char :=
  s.data.map Char.toLower

/-! ### Data model: JSON objects as structures of optional fields

Each field holds the value at the corresponding JSON key when the key is
present.  The extra flag records whether the object carries any further keys;
that can only influence Python dict truthiness, never a .get lookup. -/

/-- The nested "user" object of an article (only its "name" key is read). -/
structure AUser where
  name : Option String := none
deriving DecidableEq, Repr

/-- An article JSON object, restricted to the keys the server reads. -/
structure Article where
  title : Option String := none
  user : Option AUser := none
  readable_publish_date : Option String := none
  id : Option Int := none
  tags : Option String := none
  description : Option String := none
  body_markdown : Option String := none
  url : Option String := none
  extra : Bool := false
deriving DecidableEq, Repr

/-- Python dict truthiness: the object has no keys at all. -/
def Article.isEmptyObj (a : Article) : Bool :=
  a.title.isNone && a.user.isNone && a.readable_publish_date.isNone &&
  a.id.isNone && a.tags.isNone && a.description.isNone &&
  a.body_markdown.isNone && a.url.isNone && !a.extra

/-- A user-profile JSON object, restricted to the keys the server reads. -/
structure UserProfile where
  username : Option String := none
  name : Option String := none
  summary : Option String := none
  twitter_username : Option String := none
  github_username : Option String := none
  website_url : Option String := none
  location : Option String := none
  joined_at : Option String := none
  extra : Bool := false
deriving DecidableEq, Repr

/-- Python dict truthiness: the object has no keys at all. -/
def UserProfile.isEmptyObj (u : UserProfile) : Bool :=
  u.username.isNone && u.name.isNone && u.summary.isNone &&
  u.twitter_username.isNone && u.github_username.isNone &&
  u.website_url.isNone && u.location.isNone && u.joined_at.isNone && !u.extra

/-- Python str() of an optional integer fetched with dict.get and no default:
a missing key prints as None. -/
def pyStrOptInt : Option Int → String
  | some n => toString n
  | none => "None"

/-- Python str() of an optional string fetched with dict.get and no default:
a missing key prints as None. -/
def pyStrOptStr : Option String → String
  | some s => s
  | none => "None"

/-! ### The formatters, embedded line by line from server.py -/

/-- The text appended to the result for one article in the loop body of
format_articles, exactly in the order the source appends its pieces. -/
def articleBlock (article : Article) : String :=
  ("## " ++ article.title.getD "Untitled" ++ "\n")
    ++ ("ID: " ++ (match article.id with | some n => toString n | none => "") ++ "\n")
    ++ ("Author: " ++ (article.user.getD { name := none }).name.getD "Unknown Author" ++ "\n")
    ++ ("Published: " ++ article.readable_publish_date.getD "Unknown date" ++ "\n")
    ++ ("Tags: " ++ article.tags.getD "" ++ "\n")
    ++ ("Description: " ++ article.description.getD "No description available." ++ "\n\n")

/-- format_articles from server.py: Markdown list rendering with
.get-with-default for every field and a sentinel for the empty list. -/
def format_articles (articles : List Article) : String :=
  if articles.isEmpty then "No articles found."
  else
    articles.foldl (fun result article => result ++ articleBlock article)
      "# Dev.to Articles\n\n"

/-- format_article_details from server.py. -/
def format_article_details (article : Article) : String :=
  if article.isEmptyObj then "Article not found."
  else
    ("# " ++ article.title.getD "Untitled" ++ "\n\n")
      ++ ("Author: " ++ (article.user.getD { name := none }).name.getD "Unknown Author" ++ "\n")
      ++ ("Published: " ++ article.readable_publish_date.getD "Unknown date" ++ "\n")
      ++ ("Tags: " ++ article.tags.getD "" ++ "\n\n")
      ++ "## Content\n\n"
      ++ article.body_markdown.getD "No content available."

/-- format_user_profile from server.py: the Details and Links sections are
always emitted; each optional line is emitted only for a truthy value. -/
def format_user_profile (user : UserProfile) : String :=
  if user.isEmptyObj then "User not found."
  else
    ("# " ++ user.name.getD "Unknown" ++ " (@" ++ user.username.getD "Unknown" ++ ")\n\n")
      ++ ("Bio: " ++ user.summary.getD "No bio available." ++ "\n\n")
      ++ "## Details\n"
      ++ (if user.location.getD "" ≠ "" then
            "Location: " ++ user.location.getD "" ++ "\n" else "")
      ++ (if user.joined_at.getD "" ≠ "" then
            "Member since: " ++ user.joined_at.getD "" ++ "\n" else "")
      ++ "\n## Links\n"
      ++ (if user.twitter_username.getD "" ≠ "" then
            "Twitter: @" ++ user.twitter_username.getD "" ++ "\n" else "")
      ++ (if user.github_username.getD "" ≠ "" then
            "GitHub: " ++ user.github_username.getD "" ++ "\n" else "")
      ++ (if user.website_url.getD "" ≠ "" then
            "Website: " ++ user.website_url.getD "" ++ "\n" else "")

/-! ### The read handlers

Each handler is embedded as a function of the data its single fetch returned;
the fetch itself (path and query parameters) is outside the pure fragment. -/

/-- get_latest_articles from server.py, as a function of the fetched page. -/
def get_latest_articles (articles : List Article) : String :=
  format_articles (articles.take 10)

/-- get_top_articles from server.py, as a function of the fetched page. -/
def get_top_articles (articles : List Article) : String :=
  format_articles (articles.take 10)

/-- get_articles_by_tag from server.py; the tag argument only selects the
fetched page. -/
def get_articles_by_tag (_tag : String) (articles : List Article) : String :=
  format_articles (articles.take 10)

/-- get_articles_by_username from server.py; the username argument only
selects the fetched page. -/
def get_articles_by_username (_username : String) (articles : List Article) : String :=
  format_articles (articles.take 10)

/-- get_article_by_id from server.py, as a function of the fetched article. -/
def get_article_by_id (article : Article) : String :=
  format_article_details article

/-- get_article_details from server.py, as a function of the fetched article. -/
def get_article_details (article : Article) : String :=
  format_article_details article

/-- The list comprehension inside search_articles: keep an article when the
lowercased query occurs in the lowercased title or description, a missing
field reading as the empty string. -/
def search_filtered (query : String) (articles : List Article) : List Article :=
  articles.filter (fun article =>
    occurs (lowerL query) (lowerL (article.title.getD "")) ||
    occurs (lowerL query) (lowerL (article.description.getD "")))

/-- search_articles from server.py, as a function of the fetched page. -/
def search_articles (query : String) (articles : List Article) : String :=
  format_articles ((search_filtered query articles).take 10)

/-! ### Error handling and the write handlers -/

/-- Outcome of one HTTP call after raise_for_status: a parsed value, or an
HTTPStatusError carrying the response status code. -/
inductive FetchResult (α : Type) where
  | ok (val : α)
  | httpError (status : Nat)
deriving DecidableEq, Repr

/-- get_user_info from server.py: a 404 becomes a friendly string, any other
HTTP status error is re-raised (modelled as Except.error). -/
def get_user_info (username : String) (fetched : FetchResult UserProfile) :
    Except Nat String :=
  match fetched with
  | .ok user => .ok (format_user_profile user)
  | .httpError status =>
    if status = 404 then .ok ("User " ++ username ++ " not found.")
    else .error status

/-- JSON payload values sent by the write handlers. -/
inductive PVal where
  | s (v : String)
  | b (v : Bool)
  | o (fields : List (String × PVal))

/-- An outbound HTTP request, recording the path, JSON body and the explicit
header list passed to the client (empty when no headers argument is given). -/
inductive HttpReq where
  | get (path : String)
  | post (path : String) (body : List (String × PVal)) (headers : List (String × Option String))
  | put (path : String) (body : List (String × PVal)) (headers : List (String × Option String))

/-- create_article from server.py: builds the nested article payload, posts it
with the Content-Type and api-key headers (the key read from the process
environment), and reports id and URL on success.  The requests issued are
returned alongside the outcome. -/
def create_article (title : String) (body_markdown : String)
    (tags : String := "") (published : Bool := false)
    (env : String → Option String) (postResult : FetchResult Article) :
    List HttpReq × Except Nat String :=
  let article_data : List (String × PVal) :=
    [("article", PVal.o
      [("title", PVal.s title), ("body_markdown", PVal.s body_markdown),
       ("published", PVal.b published), ("tags", PVal.s tags)])]
  let req := HttpReq.post "/articles" article_data
    [("Content-Type", some "application/json"), ("api-key", env "DEV_TO_API_KEY")]
  match postResult with
  | .httpError status => ([req], .error status)
  | .ok article =>
    ([req], .ok ("Article created successfully with ID: " ++ pyStrOptInt article.id
      ++ "\nURL: " ++ pyStrOptStr article.url))

/-- The nested article object built by update_article: the four conditional
assignments of the source, in source order, each contributing its key only
when the argument was actually supplied. -/
def update_fields (title body_markdown tags : Option String) (published : Option Bool) :
    List (String × PVal) :=
  (match title with | some t => [("title", PVal.s t)] | none => []) ++
  (match body_markdown with | some b => [("body_markdown", PVal.s b)] | none => []) ++
  (match tags with | some t => [("tags", PVal.s t)] | none => []) ++
  (match published with | some p => [("published", PVal.b p)] | none => [])

/-- The update_data dictionary built by update_article: only the arguments
that were actually supplied contribute a key to the nested article object. -/
def update_data (title body_markdown tags : Option String) (published : Option Bool) :
    List (String × PVal) :=
  [("article", PVal.o (update_fields title body_markdown tags published))]

/-- update_article from server.py: first fetches the current article
(discarding the value), then puts the payload of only the supplied fields
without any explicit headers, and reports the URL on success.  The requests issued are returned
alongside the outcome; a failing fetch stops before the put. -/
def update_article (article_id : Int)
    (title : Option String := none) (body_markdown : Option String := none)
    (tags : Option String := none) (published : Option Bool := none)
    (fetchResult : FetchResult Article) (putResult : FetchResult Article) :
    List HttpReq × Except Nat String :=
  let path := "/articles/" ++ toString article_id
  match fetchResult with
  | .httpError status => ([HttpReq.get path], .error status)
  | .ok _ =>
    let payload := update_data title body_markdown tags published
    match putResult with
    | .httpError status => ([HttpReq.get path, HttpReq.put path payload []], .error status)
    | .ok updated_article =>
      ([HttpReq.get path, HttpReq.put path payload []],
       .ok ("Article updated successfully\nURL: " ++ pyStrOptStr updated_article.url))

/-! ### Derived definitions used to state the properties -/

/-- Concatenation of a list of strings. -/
def strConcat : List String → String
  | [] => ""
  | s :: t => s ++ strConcat t

/-- Substring containment at the string level (Python "needle in s"). -/
def occursS (needle s : String) : Bool :=
  occurs needle.data s.data

/-- The field values rendered by one article block, in rendering order. -/
def blockFields (a : Article) : List String :=
  [a.title.getD "Untitled",
   match a.id with | some n => toString n | none => "",
   (a.user.getD { name := none }).name.getD "Unknown Author",
   a.readable_publish_date.getD "Unknown date",
   a.tags.getD "",
   a.description.getD "No description available."]

/-- All field values rendered inside one article block are newline free. -/
def Article.blockNlFree (a : Article) : Prop :=
  ∀ s ∈ blockFields a, nlFree s

instance (a : Article) : Decidable a.blockNlFree := by
  unfold Article.blockNlFree; infer_instance

/-- The lines an article block contributes to the output, including the blank
separator line, valid when the rendered fields are newline free. -/
def blockLines (a : Article) : List (List Char) :=
  ["## ".data ++ (a.title.getD "Untitled").data,
   "ID: ".data ++ (match a.id with | some n => toString n | none => "").data,
   "Author: ".data ++ ((a.user.getD { name := none }).name.getD "Unknown Author").data,
   "Published: ".data ++ (a.readable_publish_date.getD "Unknown date").data,
   "Tags: ".data ++ (a.tags.getD "").data,
   "Description: ".data ++ (a.description.getD "No description available.").data,
   []]

/-- The field values rendered by format_user_profile, in rendering order. -/
def profileFields (u : UserProfile) : List String :=
  [u.name.getD "Unknown", u.username.getD "Unknown", u.summary.getD "No bio available.",
   u.location.getD "", u.joined_at.getD "",
   u.twitter_username.getD "", u.github_username.getD "", u.website_url.getD ""]

/-- All field values rendered by format_user_profile are newline free. -/
def UserProfile.profNlFree (u : UserProfile) : Prop :=
  ∀ s ∈ profileFields u, nlFree s

instance (u : UserProfile) : Decidable u.profNlFree := by
  unfold UserProfile.profNlFree; infer_instance

/-- The lines of a formatted non-empty user profile, valid when the rendered
fields are newline free. -/
def profileLines (u : UserProfile) : List (List Char) :=
  ("# ".data ++ ((u.name.getD "Unknown").data ++ (" (@".data ++
      ((u.username.getD "Unknown").data ++ ")".data)))) :: [] ::
  ("Bio: ".data ++ (u.summary.getD "No bio available.").data) :: [] ::
  "## Details".data ::
  ((if u.location.getD "" ≠ "" then
      ["Location: ".data ++ (u.location.getD "").data] else []) ++
   ((if u.joined_at.getD "" ≠ "" then
      ["Member since: ".data ++ (u.joined_at.getD "").data] else []) ++
    ([] :: "## Links".data ::
     ((if u.twitter_username.getD "" ≠ "" then
        ["Twitter: @".data ++ (u.twitter_username.getD "").data] else []) ++
      ((if u.github_username.getD "" ≠ "" then
         ["GitHub: ".data ++ (u.github_username.getD "").data] else []) ++
       ((if u.website_url.getD "" ≠ "" then
          ["Website: ".data ++ (u.website_url.getD "").data] else []) ++ [[]]))))))

/-- The block shape the specification describes for one listed article: a
second-level title heading followed by ID, Author, Published, Tags and
Description lines, in that order. -/
def spec_block (title idv author published tags description : String) : String :=
  ("## " ++ title ++ "\n")
    ++ ("ID: " ++ idv ++ "\n")
    ++ ("Author: " ++ author ++ "\n")
    ++ ("Published: " ++ published ++ "\n")
    ++ ("Tags: " ++ tags ++ "\n")
    ++ ("Description: " ++ description ++ "\n\n")

/-- The search predicate exactly as the specification words it: keep an
article when its title or description, compared case-insensitively, contains
the query as a substring, a missing field counting as the empty string. -/
def spec_search_keep (query : String) (article : Article) : Bool :=
  occurs (lowerL query) (lowerL (article.title.getD "")) ||
  occurs (lowerL query) (lowerL (article.description.getD ""))

/-! ### Basic lemmas about the string utilities -/

lemma pfx_append (n h t : List Char) (hp : pfx n h = true) : pfx n (h ++ t) = true := by
  induction n generalizing h with
  | nil => simp [pfx]
  | cons a as ih =>
    cases h with
    | nil => simp [pfx] at hp
    | cons b bs =>
      simp only [pfx, Bool.and_eq_true] at hp ⊢
      exact ⟨hp.1, ih bs hp.2⟩

lemma pfx_self (n : List Char) : pfx n n = true := by
  induction n <;> simp [pfx, *]

lemma pfx_self_append (n t : List Char) : pfx n (n ++ t) = true :=
  pfx_append n n t (pfx_self n)

lemma occurs_nil (h : List Char) : occurs [] h = true := by
  induction h <;> simp [occurs, pfx, *]

lemma occurs_append_right (n h t : List Char) (ho : occurs n t = true) :
    occurs n (h ++ t) = true := by
  induction h with
  | nil => simpa
  | cons c cs ih =>
    simp only [List.cons_append, occurs, Bool.or_eq_true]
    exact Or.inr ih

lemma occurs_append_left (n h t : List Char) (ho : occurs n h = true) :
    occurs n (h ++ t) = true := by
  induction h with
  | nil =>
    have hn : n = [] := by simpa [occurs] using ho
    subst hn
    simpa using occurs_nil t
  | cons c cs ih =>
    have ho2 : pfx n (c :: cs) = true ∨ occurs n cs = true := by
      simpa [occurs, Bool.or_eq_true] using ho
    simp only [List.cons_append, occurs, Bool.or_eq_true]
    rcases ho2 with hp | hx
    · exact Or.inl (by simpa using pfx_append n (c :: cs) t hp)
    · exact Or.inr (ih hx)

lemma occurs_self_append (n t : List Char) : occurs n (n ++ t) = true := by
  cases n with
  | nil => simpa using occurs_nil t
  | cons a as =>
    simp only [List.cons_append, occurs, Bool.or_eq_true]
    exact Or.inl (by simpa using pfx_self_append (a :: as) t)

lemma occursS_append_right (n x y : String) (h : occursS n y = true) :
    occursS n (x ++ y) = true := by
  simp only [occursS, String.data_append]
  exact occurs_append_right _ _ _ h

lemma occursS_append_left (n x y : String) (h : occursS n x = true) :
    occursS n (x ++ y) = true := by
  simp only [occursS, String.data_append]
  exact occurs_append_left _ _ _ h

lemma occursS_self_append (n t : String) : occursS n (n ++ t) = true := by
  simp only [occursS, String.data_append]
  exact occurs_self_append _ _

lemma occursS_self (n : String) : occursS n n = true := by
  have := occurs_self_append n.data []
  simpa [occursS] using this

/-! ### Lemmas about line splitting -/

lemma splitNl_ne_nil (l : List Char) : splitNl l ≠ [] := by
  cases l with
  | nil => simp [splitNl]
  | cons c t => unfold splitNl; split <;> simp

lemma splitNl_nl (t : List Char) : splitNl ('\n' :: t) = [] :: splitNl t := by
  simp [splitNl]

lemma splitNl_headI_tail (l : List Char) : splitNl l = (splitNl l).headI :: (splitNl l).tail := by
  cases hs : splitNl l with
  | nil => exact absurd hs (splitNl_ne_nil l)
  | cons a t => simp

lemma splitNl_append_nlFree (cs rest : List Char) (h : ∀ c ∈ cs, c ≠ '\n') :
    splitNl (cs ++ rest) = (cs ++ (splitNl rest).headI) :: (splitNl rest).tail := by
  induction cs with
  | nil => simpa using splitNl_headI_tail rest
  | cons c cs ih =>
    have hc : c ≠ '\n' := h c (by simp)
    have ih2 := ih (fun x hx => h x (by simp [hx]))
    simp only [List.cons_append]
    rw [splitNl, if_neg hc, ih2]
    simp

lemma splitNl_line_append (cs rest : List Char) (h : ∀ c ∈ cs, c ≠ '\n') :
    splitNl (cs ++ '\n' :: rest) = cs :: splitNl rest := by
  rw [splitNl_append_nlFree cs _ h, splitNl_nl]
  simp

lemma splitNl_strLine (p v : String) (rest : List Char) (hp : nlFree p) (hv : nlFree v) :
    splitNl (p.data ++ (v.data ++ '\n' :: rest)) = (p.data ++ v.data) :: splitNl rest := by
  rw [← List.append_assoc]
  refine splitNl_line_append _ _ ?_
  intro c hc
  rcases List.mem_append.mp hc with h | h
  · exact hp c h
  · exact hv c h

lemma splitNl_optLine (c : Prop) [Decidable c] (p v : String) (rest : List Char)
    (hp : nlFree p) (hv : nlFree v) :
    splitNl ((if c then p ++ v ++ "\n" else "").data ++ rest) =
      (if c then [p.data ++ v.data] else []) ++ splitNl rest := by
  by_cases hc : c
  · simp only [if_pos hc]
    have e : (p ++ v ++ "\n").data ++ rest = p.data ++ (v.data ++ '\n' :: rest) := by
      simp [String.data_append]
    rw [e, splitNl_strLine p v rest hp hv]
    simp
  · simp only [if_neg hc]
    simp

/-! ### From the fold in format_articles to concatenated blocks -/

lemma foldl_append_eq (f : Article → String) (l : List Article) (init : String) :
    l.foldl (fun r a => r ++ f a) init = init ++ strConcat (l.map f) := by
  induction l generalizing init with
  | nil =>
    apply String.ext
    simp [strConcat]
  | cons a t ih =>
    simp only [List.foldl_cons, List.map_cons, strConcat]
    rw [ih]
    apply String.ext
    simp [String.data_append]

lemma format_articles_ne (l : List Article) (h : l ≠ []) :
    format_articles l = "# Dev.to Articles\n\n" ++ strConcat (l.map articleBlock) := by
  unfold format_articles
  rw [if_neg (by simpa [List.isEmpty_iff] using h)]
  exact foldl_append_eq articleBlock l _

lemma nf_append {a b : List Char} (ha : ∀ c ∈ a, c ≠ '\n') (hb : ∀ c ∈ b, c ≠ '\n') :
    ∀ c ∈ a ++ b, c ≠ '\n' := by
  intro c hc
  rcases List.mem_append.mp hc with h | h
  · exact ha c h
  · exact hb c h

lemma splitNl_block_append (a : Article) (rest : List Char) (h : a.blockNlFree) :
    splitNl ((articleBlock a).data ++ rest) = blockLines a ++ splitNl rest := by
  have hT : nlFree (a.title.getD "Untitled") := h _ (by simp [blockFields])
  have hI : nlFree (match a.id with | some n => toString n | none => "") :=
    h _ (by simp [blockFields])
  have hAu : nlFree ((a.user.getD { name := none }).name.getD "Unknown Author") :=
    h _ (by simp [blockFields])
  have hD : nlFree (a.readable_publish_date.getD "Unknown date") :=
    h _ (by simp [blockFields])
  have hG : nlFree (a.tags.getD "") := h _ (by simp [blockFields])
  have hDe : nlFree (a.description.getD "No description available.") :=
    h _ (by simp [blockFields])
  have e : (articleBlock a).data ++ rest =
      "## ".data ++ ((a.title.getD "Untitled").data ++ '\n' ::
      ("ID: ".data ++ ((match a.id with | some n => toString n | none => "").data ++ '\n' ::
      ("Author: ".data ++ (((a.user.getD { name := none }).name.getD "Unknown Author").data ++ '\n' ::
      ("Published: ".data ++ ((a.readable_publish_date.getD "Unknown date").data ++ '\n' ::
      ("Tags: ".data ++ ((a.tags.getD "").data ++ '\n' ::
      ("Description: ".data ++ ((a.description.getD "No description available.").data ++ '\n' ::
      ('\n' :: rest)))))))))))) := by
    simp [articleBlock, String.data_append]
  rw [e, splitNl_strLine _ _ _ (by decide) hT, splitNl_strLine _ _ _ (by decide) hI,
      splitNl_strLine _ _ _ (by decide) hAu, splitNl_strLine _ _ _ (by decide) hD,
      splitNl_strLine _ _ _ (by decide) hG, splitNl_strLine _ _ _ (by decide) hDe,
      splitNl_nl]
  simp [blockLines]

lemma splitNl_blocks (l : List Article) (rest : List Char) (h : ∀ a ∈ l, a.blockNlFree) :
    splitNl ((strConcat (l.map articleBlock)).data ++ rest) =
      (l.map blockLines).flatten ++ splitNl rest := by
  induction l with
  | nil => simp [strConcat]
  | cons a t ih =>
    have e : (strConcat ((a :: t).map articleBlock)).data ++ rest =
        (articleBlock a).data ++ ((strConcat (t.map articleBlock)).data ++ rest) := by
      simp [strConcat, String.data_append]
    rw [e, splitNl_block_append a _ (h a (by simp)), ih (fun x hx => h x (by simp [hx]))]
    simp

lemma count_hd_blockLines (a : Article) :
    ((blockLines a).filter (fun l => pfx ['#', '#'] l)).length = 1 := by
  simp [blockLines, List.filter, pfx]

lemma count_hd_flatten (l : List Article) :
    (((l.map blockLines).flatten).filter (fun l => pfx ['#', '#'] l)).length = l.length := by
  induction l with
  | nil => simp
  | cons a t ih =>
    simp only [List.map_cons, List.flatten_cons, List.filter_append, List.length_append, ih,
      count_hd_blockLines, List.length_cons]
    omega

lemma headingCount_format_articles (l : List Article) (h : ∀ a ∈ l, a.blockNlFree) :
    headingCount (format_articles l) = l.length := by
  cases l with
  | nil => decide
  | cons a t =>
    have hne : (a :: t) ≠ ([] : List Article) := by simp
    rw [headingCount, linesOf, format_articles_ne _ hne]
    have e : ("# Dev.to Articles\n\n" ++ strConcat ((a :: t).map articleBlock)).data =
        "# Dev.to Articles".data ++ '\n' ::
          ('\n' :: ((strConcat ((a :: t).map articleBlock)).data ++ [])) := by
      simp [String.data_append]
    rw [e, splitNl_line_append _ _ (by decide), splitNl_nl, splitNl_blocks _ _ h]
    rw [List.filter_cons_of_neg (by decide), List.filter_cons_of_neg (by decide),
        List.filter_append, List.length_append, count_hd_flatten]
    simp [splitNl, pfx]

/-! ### Claim C1 -/

/-- C1 (amended): every article-list handler truncates the fetched collection
to its first 10 entries before passing it to format_articles; and, provided
every rendered field value of the kept articles is newline free, the output
contains exactly one "##" heading per kept article and hence never more than
10 such headings. -/
theorem c1_truncation_and_heading_count (articles : List Article)
    (h : ∀ a ∈ articles.take 10, a.blockNlFree) :
    get_top_articles articles = format_articles (articles.take 10) ∧
    get_latest_articles articles = format_articles (articles.take 10) ∧
    (∀ tag, get_articles_by_tag tag articles = format_articles (articles.take 10)) ∧
    headingCount (get_top_articles articles) = (articles.take 10).length ∧
    headingCount (get_top_articles articles) ≤ 10 := by
  refine ⟨rfl, rfl, fun _ => rfl, headingCount_format_articles _ h, ?_⟩
  rw [show get_top_articles articles = format_articles (articles.take 10) from rfl,
      headingCount_format_articles _ h]
  exact List.length_take_le 10 articles

/-- C1 witness: the amended statement evaluated on a concrete two-article page. -/
theorem c1_truncation_and_heading_count_witness :
    (∀ a ∈ ([{ title := some "A" }, { description := some "d" }] : List Article).take 10,
      a.blockNlFree) ∧
    headingCount (get_top_articles
      ([{ title := some "A" }, { description := some "d" }] : List Article)) = 2 := by
  refine ⟨by decide, ?_⟩
  have := (c1_truncation_and_heading_count
    ([{ title := some "A" }, { description := some "d" }] : List Article) (by decide)).2.2.2.1
  simpa using this

/-- C1 counterexample: with a description containing an embedded newline and
"##", the formatter emits two "##" headings for a single article, so the
claim as universally stated fails. -/
theorem c1_counterexample :
    headingCount (get_top_articles [{ description := some "x\n## Injected" }]) ≠ 1 := by
  decide

/-! ### Claim C4 -/

/-- C4 (amended to non-empty fetched lists): the top-articles response is the
fixed header followed by at most ten blocks, each a "##" title heading
followed by ID, Author, Published, Tags and Description lines in that order. -/
theorem c4_top_articles_shape (articles : List Article) (h : articles ≠ []) :
    get_top_articles articles =
      "# Dev.to Articles\n\n" ++ strConcat ((articles.take 10).map (fun a =>
        spec_block (a.title.getD "Untitled")
          (match a.id with | some n => toString n | none => "")
          ((a.user.getD { name := none }).name.getD "Unknown Author")
          (a.readable_publish_date.getD "Unknown date")
          (a.tags.getD "")
          (a.description.getD "No description available."))) ∧
    (articles.take 10).length ≤ 10 := by
  constructor
  · have htake : articles.take 10 ≠ [] := by
      cases articles with
      | nil => exact absurd rfl h
      | cons a t => simp
    rw [show get_top_articles articles = format_articles (articles.take 10) from rfl,
        format_articles_ne _ htake]
    have hb : articleBlock = fun a =>
        spec_block (a.title.getD "Untitled")
          (match a.id with | some n => toString n | none => "")
          ((a.user.getD { name := none }).name.getD "Unknown Author")
          (a.readable_publish_date.getD "Unknown date")
          (a.tags.getD "")
          (a.description.getD "No description available.") := by
      funext a
      apply String.ext
      simp [articleBlock, spec_block, String.data_append]
    rw [hb]
  · exact List.length_take_le 10 articles

/-- C4 witness: the amended statement evaluated on a concrete one-article page. -/
theorem c4_top_articles_shape_witness :
    ([({ title := some "T", id := some 3 } : Article)] ≠ ([] : List Article)) ∧
    get_top_articles [({ title := some "T", id := some 3 } : Article)] =
      "# Dev.to Articles\n\n" ++
        "## T\nID: 3\nAuthor: Unknown Author\nPublished: Unknown date\nTags: \nDescription: No description available.\n\n" := by
  refine ⟨by decide, ?_⟩
  have := (c4_top_articles_shape [({ title := some "T", id := some 3 } : Article)]
    (by decide)).1
  rw [this]
  decide

/-- C4 counterexample: on the empty fetched list the handler returns the
sentinel, which does not start with the claimed header. -/
theorem c4_counterexample :
    get_top_articles ([] : List Article) = "No articles found." ∧
    pfx "# Dev.to Articles\n\n".data (get_top_articles ([] : List Article)).data = false := by
  exact ⟨rfl, by decide⟩

/-! ### Claim C2 -/

/-- C2: the filtered result set computed by search_articles equals the
subsequence of the fetched page consisting of exactly those articles whose
title or description, compared case-insensitively, contains the query as a
substring, a missing field reading as the empty string. -/
theorem c2_search_filter_spec (query : String) (articles : List Article) :
    search_filtered query articles = articles.filter (spec_search_keep query) ∧
    List.Sublist (search_filtered query articles) articles ∧
    (∀ a, a ∈ search_filtered query articles ↔
      a ∈ articles ∧ spec_search_keep query a = true) := by
  refine ⟨rfl, List.filter_sublist articles, ?_⟩
  intro a
  exact List.mem_filter

/-! ### Claim C3 -/

/-- C3: a 404 from the user fetch yields the friendly sentinel string and no
propagated error; any other failing status propagates as an error. -/
theorem c3_user_info_404 (username : String) :
    get_user_info username (.httpError 404) =
      .ok ("User " ++ username ++ " not found.") ∧
    (∀ status, status ≠ 404 →
      get_user_info username (.httpError status) = .error status) := by
  refine ⟨rfl, ?_⟩
  intro status hs
  simp [get_user_info, hs]

/-- C3 witness: concrete 404 and 500 outcomes for one username. -/
theorem c3_user_info_404_witness :
    (500 ≠ 404) ∧
    get_user_info "alice" (.httpError 404) = .ok "User alice not found." ∧
    get_user_info "alice" (.httpError 500) = .error 500 := by
  refine ⟨by decide, ?_, (c3_user_info_404 "alice").2 500 (by decide)⟩
  exact (c3_user_info_404 "alice").1

/-! ### Claim C5 -/

/-- C5: each formatter maps an empty input to its fixed sentinel string
rather than empty output. -/
theorem c5_empty_sentinels :
    format_articles [] = "No articles found." ∧
    format_article_details ({} : Article) = "Article not found." ∧
    format_user_profile ({} : UserProfile) = "User not found." :=
  ⟨rfl, rfl, rfl⟩

/-! ### Claim C9 -/

/-- C9: the substring test is true for every article when the query is empty,
so search with the empty query keeps the whole page and formats its first ten
articles unfiltered. -/
theorem c9_empty_query (articles : List Article) :
    (∀ a : Article, (occurs (lowerL "") (lowerL (a.title.getD "")) ||
        occurs (lowerL "") (lowerL (a.description.getD ""))) = true) ∧
    search_filtered "" articles = articles ∧
    search_articles "" articles = format_articles (articles.take 10) := by
  have hall : ∀ a : Article, (occurs (lowerL "") (lowerL (a.title.getD "")) ||
      occurs (lowerL "") (lowerL (a.description.getD ""))) = true := by
    intro a
    have h1 : lowerL "" = [] := rfl
    simp [h1, occurs_nil]
  have hf : search_filtered "" articles = articles := by
    apply List.filter_eq_self.mpr
    intro a _
    exact hall a
  refine ⟨hall, hf, ?_⟩
  rw [show search_articles "" articles =
    format_articles ((search_filtered "" articles).take 10) from rfl, hf]

/-! ### Claim C6 -/

lemma occursS_in_mid (n x y : String) : occursS n ((x ++ n) ++ y) = true :=
  occursS_append_left _ _ _ (occursS_append_right _ _ _ (occursS_self n))

/-- C6: the formatters are total on sparse objects and substitute the
documented default for every missing optional field (the embedding is total
by construction; each conjunct exhibits the documented default in the
output when the corresponding key is absent). -/
theorem c6_formatter_defaults (a : Article) (u : UserProfile)
    (ha : a.isEmptyObj = false) (hu : u.isEmptyObj = false) :
    (a.title = none → occursS "Untitled" (format_article_details a) = true) ∧
    ((a.user.getD { name := none }).name = none →
      occursS "Unknown Author" (format_article_details a) = true) ∧
    (a.readable_publish_date = none →
      occursS "Unknown date" (format_article_details a) = true) ∧
    (a.body_markdown = none →
      occursS "No content available." (format_article_details a) = true) ∧
    (a.title = none → occursS "Untitled" (format_articles [a]) = true) ∧
    (a.description = none →
      occursS "No description available." (format_articles [a]) = true) ∧
    (u.name = none → occursS "Unknown" (format_user_profile u) = true) ∧
    (u.summary = none → occursS "No bio available." (format_user_profile u) = true) := by
  have hD : format_article_details a =
      ("# " ++ a.title.getD "Untitled" ++ "\n\n")
        ++ ("Author: " ++ (a.user.getD { name := none }).name.getD "Unknown Author" ++ "\n")
        ++ ("Published: " ++ a.readable_publish_date.getD "Unknown date" ++ "\n")
        ++ ("Tags: " ++ a.tags.getD "" ++ "\n\n")
        ++ "## Content\n\n"
        ++ a.body_markdown.getD "No content available." := by
    unfold format_article_details
    rw [if_neg (by simp [ha])]
  have hL : format_articles [a] = "# Dev.to Articles\n\n" ++ (articleBlock a ++ "") := by
    rw [format_articles_ne [a] (by simp)]
    rfl
  have hP : format_user_profile u =
      ("# " ++ u.name.getD "Unknown" ++ " (@" ++ u.username.getD "Unknown" ++ ")\n\n")
        ++ ("Bio: " ++ u.summary.getD "No bio available." ++ "\n\n")
        ++ "## Details\n"
        ++ (if u.location.getD "" ≠ "" then
              "Location: " ++ u.location.getD "" ++ "\n" else "")
        ++ (if u.joined_at.getD "" ≠ "" then
              "Member since: " ++ u.joined_at.getD "" ++ "\n" else "")
        ++ "\n## Links\n"
        ++ (if u.twitter_username.getD "" ≠ "" then
              "Twitter: @" ++ u.twitter_username.getD "" ++ "\n" else "")
        ++ (if u.github_username.getD "" ≠ "" then
              "GitHub: " ++ u.github_username.getD "" ++ "\n" else "")
        ++ (if u.website_url.getD "" ≠ "" then
              "Website: " ++ u.website_url.getD "" ++ "\n" else "") := by
    unfold format_user_profile
    rw [if_neg (by simp [hu])]
  refine ⟨?_, ?_, ?_, ?_, ?_, ?_, ?_, ?_⟩
  · intro h1
    rw [hD, h1]
    simp only [Option.getD_none]
    apply occursS_append_left
    apply occursS_append_left
    apply occursS_append_left
    apply occursS_append_left
    apply occursS_append_left
    exact occursS_in_mid _ _ _
  · intro h2
    rw [hD, h2]
    simp only [Option.getD_none]
    apply occursS_append_left
    apply occursS_append_left
    apply occursS_append_left
    apply occursS_append_left
    apply occursS_append_right
    exact occursS_in_mid _ _ _
  · intro h3
    rw [hD, h3]
    simp only [Option.getD_none]
    apply occursS_append_left
    apply occursS_append_left
    apply occursS_append_left
    apply occursS_append_right
    exact occursS_in_mid _ _ _
  · intro h4
    rw [hD, h4]
    simp only [Option.getD_none]
    apply occursS_append_right
    exact occursS_self _
  · intro h1
    rw [hL]
    apply occursS_append_right
    apply occursS_append_left
    unfold articleBlock
    rw [h1]
    simp only [Option.getD_none]
    apply occursS_append_left
    apply occursS_append_left
    apply occursS_append_left
    apply occursS_append_left
    apply occursS_append_left
    exact occursS_in_mid _ _ _
  · intro h6
    rw [hL]
    apply occursS_append_right
    apply occursS_append_left
    unfold articleBlock
    rw [h6]
    simp only [Option.getD_none]
    apply occursS_append_right
    exact occursS_in_mid _ _ _
  · intro h7
    rw [hP, h7]
    simp only [Option.getD_none]
    apply occursS_append_left
    apply occursS_append_left
    apply occursS_append_left
    apply occursS_append_left
    apply occursS_append_left
    apply occursS_append_left
    apply occursS_append_left
    apply occursS_append_left
    apply occursS_append_left
    apply occursS_append_left
    exact occursS_in_mid _ _ _
  · intro h8
    rw [hP, h8]
    simp only [Option.getD_none]
    apply occursS_append_left
    apply occursS_append_left
    apply occursS_append_left
    apply occursS_append_left
    apply occursS_append_left
    apply occursS_append_left
    apply occursS_append_left
    apply occursS_append_right
    exact occursS_in_mid _ _ _

/-- C6 witness: the defaults all appear for an object carrying only unknown
keys, hence non-empty with every read key absent. -/
theorem c6_formatter_defaults_witness :
    (({ extra := true } : Article).isEmptyObj = false) ∧
    occursS "Untitled" (format_article_details ({ extra := true } : Article)) = true ∧
    occursS "Unknown Author" (format_article_details ({ extra := true } : Article)) = true ∧
    occursS "Unknown date" (format_article_details ({ extra := true } : Article)) = true ∧
    occursS "No content available." (format_article_details ({ extra := true } : Article)) = true ∧
    occursS "Untitled" (format_articles [({ extra := true } : Article)]) = true ∧
    occursS "No description available." (format_articles [({ extra := true } : Article)]) = true ∧
    occursS "Unknown" (format_user_profile ({ extra := true } : UserProfile)) = true ∧
    occursS "No bio available." (format_user_profile ({ extra := true } : UserProfile)) = true := by
  have h := c6_formatter_defaults ({ extra := true } : Article)
    ({ extra := true } : UserProfile) (by decide) (by decide)
  exact ⟨by decide, h.1 rfl, h.2.1 rfl, h.2.2.1 rfl, h.2.2.2.1 rfl, h.2.2.2.2.1 rfl,
    h.2.2.2.2.2.1 rfl, h.2.2.2.2.2.2.1 rfl, h.2.2.2.2.2.2.2 rfl⟩

/-! ### Claim C7 -/

/-- C7: update_article first issues the fetch (whose value is discarded and
does not influence the later request), builds a payload whose article object
contains exactly the supplied fields, puts it, and reports the resulting URL
on success; a failing fetch propagates before any put. -/
theorem c7_update_article (article_id : Int) (title body_markdown tags : Option String)
    (published : Option Bool) (fetchR putR : FetchResult Article) :
    ((update_article article_id title body_markdown tags published fetchR putR).1.head? =
      some (HttpReq.get ("/articles/" ++ toString article_id))) ∧
    (∀ st, fetchR = .httpError st →
      update_article article_id title body_markdown tags published fetchR putR =
        ([HttpReq.get ("/articles/" ++ toString article_id)], .error st)) ∧
    (∀ a, fetchR = .ok a →
      (update_article article_id title body_markdown tags published fetchR putR).1 =
        [HttpReq.get ("/articles/" ++ toString article_id),
         HttpReq.put ("/articles/" ++ toString article_id)
           (update_data title body_markdown tags published) []]) ∧
    (∀ a ua, fetchR = .ok a → putR = .ok ua →
      (update_article article_id title body_markdown tags published fetchR putR).2 =
        .ok ("Article updated successfully\nURL: " ++ pyStrOptStr ua.url)) ∧
    (update_data title body_markdown tags published =
      [("article", PVal.o (update_fields title body_markdown tags published))]) ∧
    ((update_fields title body_markdown tags published).lookup "title" =
      title.map PVal.s) ∧
    ((update_fields title body_markdown tags published).lookup "body_markdown" =
      body_markdown.map PVal.s) ∧
    ((update_fields title body_markdown tags published).lookup "tags" =
      tags.map PVal.s) ∧
    ((update_fields title body_markdown tags published).lookup "published" =
      published.map PVal.b) := by
  refine ⟨?_, ?_, ?_, ?_, rfl, ?_, ?_, ?_, ?_⟩
  · rcases fetchR with a | st
    · rcases putR with ua | st2 <;> simp [update_article]
    · simp [update_article]
  · intro st h
    subst h
    simp [update_article]
  · intro a h
    subst h
    rcases putR with ua | st2 <;> simp [update_article]
  · intro a ua h1 h2
    subst h1
    subst h2
    simp [update_article]
  · rcases title with _ | t <;> rcases body_markdown with _ | b <;>
      rcases tags with _ | g <;> rcases published with _ | p <;>
      simp [update_fields, List.lookup]
  · rcases title with _ | t <;> rcases body_markdown with _ | b <;>
      rcases tags with _ | g <;> rcases published with _ | p <;>
      simp [update_fields, List.lookup]
  · rcases title with _ | t <;> rcases body_markdown with _ | b <;>
      rcases tags with _ | g <;> rcases published with _ | p <;>
      simp [update_fields, List.lookup]
  · rcases title with _ | t <;> rcases body_markdown with _ | b <;>
      rcases tags with _ | g <;> rcases published with _ | p <;>
      simp [update_fields, List.lookup]

/-- C7 witness: a concrete update carrying title and tags only. -/
theorem c7_update_article_witness :
    (update_article 5 (some "T") none (some "a,b") (some true)
      (.ok ({} : Article)) (.ok ({ url := some "http://x" } : Article))).1 =
      [HttpReq.get "/articles/5",
       HttpReq.put "/articles/5" (update_data (some "T") none (some "a,b") (some true)) []] ∧
    (update_article 5 (some "T") none (some "a,b") (some true)
      (.ok ({} : Article)) (.ok ({ url := some "http://x" } : Article))).2 =
      .ok "Article updated successfully\nURL: http://x" ∧
    (update_fields (some "T") none (some "a,b") (some true)).lookup "title" =
      some (PVal.s "T") ∧
    (update_fields (some "T") none (some "a,b") (some true)).lookup "body_markdown" =
      none := by
  have h := c7_update_article 5 (some "T") none (some "a,b") (some true)
    (.ok ({} : Article)) (.ok ({ url := some "http://x" } : Article))
  exact ⟨h.2.2.1 {} rfl, h.2.2.2.1 {} { url := some "http://x" } rfl rfl,
    h.2.2.2.2.2.1, h.2.2.2.2.2.2.1⟩

/-! ### Claim C8 -/

/-- C8: create_article posts the nested payload with Content-Type and api-key
headers, the key taken from the DEV_TO_API_KEY environment lookup, and
reports the created id and URL on success; every put issued by
update_article carries an empty header list, hence no api-key header. -/
theorem c8_create_auth_update_unauth (title body_markdown tags : String)
    (published : Bool) (env : String → Option String) (postR : FetchResult Article) :
    ((create_article title body_markdown tags published env postR).1 =
      [HttpReq.post "/articles"
        [("article", PVal.o
          [("title", PVal.s title), ("body_markdown", PVal.s body_markdown),
           ("published", PVal.b published), ("tags", PVal.s tags)])]
        [("Content-Type", some "application/json"),
         ("api-key", env "DEV_TO_API_KEY")]]) ∧
    ([("Content-Type", some "application/json"),
      ("api-key", env "DEV_TO_API_KEY")].lookup "api-key" =
        some (env "DEV_TO_API_KEY")) ∧
    (∀ a, postR = .ok a →
      (create_article title body_markdown tags published env postR).2 =
        .ok ("Article created successfully with ID: " ++ pyStrOptInt a.id
          ++ "\nURL: " ++ pyStrOptStr a.url)) ∧
    (∀ (article_id : Int) (t b g : Option String) (p : Option Bool)
        (fr pr : FetchResult Article),
      ∀ r ∈ (update_article article_id t b g p fr pr).1,
        ∀ pth bd hs, r = HttpReq.put pth bd hs → hs = []) := by
  refine ⟨?_, ?_, ?_, ?_⟩
  · rcases postR with a | st <;> simp [create_article]
  · simp [List.lookup]
  · intro a h
    subst h
    simp [create_article]
  · intro article_id t b g p fr pr r hr pth bd hs hput
    subst hput
    rcases fr with a | st
    · rcases pr with ua | st2 <;>
        (simp [update_article] at hr; exact hr.2.2)
    · simp [update_article] at hr

/-- C8 witness: a concrete create reports id and URL, and a concrete update
put carries the empty header list. -/
theorem c8_create_auth_update_unauth_witness :
    ((.ok ({ id := some 9, url := some "u" } : Article) : FetchResult Article) =
      .ok ({ id := some 9, url := some "u" } : Article)) ∧
    (create_article "T" "B" "x" true (fun _ => some "KEY")
      (.ok ({ id := some 9, url := some "u" } : Article))).2 =
      .ok "Article created successfully with ID: 9\nURL: u" ∧
    ([] : List (String × Option String)) = [] := by
  have h := c8_create_auth_update_unauth "T" "B" "x" true (fun _ => some "KEY")
    (.ok ({ id := some 9, url := some "u" } : Article))
  refine ⟨rfl, h.2.2.1 _ rfl, ?_⟩
  exact h.2.2.2 3 none none none none (.ok ({} : Article)) (.ok ({} : Article))
    (HttpReq.put ("/articles/" ++ toString (3 : Int)) (update_data none none none none) [])
    (List.mem_cons_of_mem _ (List.mem_cons_self _ _))
    ("/articles/" ++ toString (3 : Int)) (update_data none none none none) [] rfl

/-! ### Claim C10 -/

lemma any_optLine (c : Prop) [Decidable c] (x : List Char) (p : List Char → Bool) :
    ((if c then [x] else []).any p) = (decide c && p x) := by
  by_cases hc : c <;> simp [hc]

lemma exists_line (A : Prop) (e : List Char) (P : List Char → Prop) :
    (∃ x, (A ∧ x = e) ∧ P x) ↔ A ∧ P e := by
  constructor
  · rintro ⟨x, ⟨hA, hx⟩, hP⟩
    exact ⟨hA, hx ▸ hP⟩
  · rintro ⟨hA, hP⟩
    exact ⟨e, ⟨hA, rfl⟩, hP⟩

lemma splitNl_nil : splitNl ([] : List Char) = [[]] := rfl

lemma profile_linesOf (u : UserProfile) (hne : u.isEmptyObj = false)
    (h : u.profNlFree) :
    linesOf (format_user_profile u) = profileLines u := by
  have hN : nlFree (u.name.getD "Unknown") := h _ (by simp [profileFields])
  have hU : nlFree (u.username.getD "Unknown") := h _ (by simp [profileFields])
  have hB : nlFree (u.summary.getD "No bio available.") := h _ (by simp [profileFields])
  have hLo : nlFree (u.location.getD "") := h _ (by simp [profileFields])
  have hJ : nlFree (u.joined_at.getD "") := h _ (by simp [profileFields])
  have hTw : nlFree (u.twitter_username.getD "") := h _ (by simp [profileFields])
  have hGh : nlFree (u.github_username.getD "") := h _ (by simp [profileFields])
  have hWb : nlFree (u.website_url.getD "") := h _ (by simp [profileFields])
  have nf1 : ∀ c ∈ "# ".data ++ ((u.name.getD "Unknown").data ++ (" (@".data ++
      ((u.username.getD "Unknown").data ++ ")".data))), c ≠ '\n' :=
    nf_append (by decide) (nf_append hN (nf_append (by decide) (nf_append hU (by decide))))
  have e : (format_user_profile u).data =
      ("# ".data ++ ((u.name.getD "Unknown").data ++ (" (@".data ++
        ((u.username.getD "Unknown").data ++ ")".data)))) ++ '\n' :: ('\n' ::
      ("Bio: ".data ++ ((u.summary.getD "No bio available.").data ++ '\n' :: ('\n' ::
      ("## Details".data ++ '\n' ::
      ((if u.location.getD "" ≠ "" then
          "Location: " ++ u.location.getD "" ++ "\n" else "").data ++
      ((if u.joined_at.getD "" ≠ "" then
          "Member since: " ++ u.joined_at.getD "" ++ "\n" else "").data ++
      ('\n' ::
      ("## Links".data ++ '\n' ::
      ((if u.twitter_username.getD "" ≠ "" then
          "Twitter: @" ++ u.twitter_username.getD "" ++ "\n" else "").data ++
      ((if u.github_username.getD "" ≠ "" then
          "GitHub: " ++ u.github_username.getD "" ++ "\n" else "").data ++
      ((if u.website_url.getD "" ≠ "" then
          "Website: " ++ u.website_url.getD "" ++ "\n" else "").data ++
      ([] : List Char))))))))))))) := by
    unfold format_user_profile
    rw [if_neg (by simp [hne])]
    simp [String.data_append]
  rw [linesOf, e, splitNl_line_append _ _ nf1, splitNl_nl,
      splitNl_strLine "Bio: " _ _ (by decide) hB, splitNl_nl,
      splitNl_line_append _ _ (by decide),
      splitNl_optLine _ "Location: " _ _ (by decide) hLo,
      splitNl_optLine _ "Member since: " _ _ (by decide) hJ,
      splitNl_nl,
      splitNl_line_append _ _ (by decide),
      splitNl_optLine _ "Twitter: @" _ _ (by decide) hTw,
      splitNl_optLine _ "GitHub: " _ _ (by decide) hGh,
      splitNl_optLine _ "Website: " _ _ (by decide) hWb,
      splitNl_nil]
  rfl

/-- C10 (amended with the proviso that the rendered field values are newline
free): the formatted non-empty profile always contains the Details and Links
section heading lines, and each of the Location, Member since, Twitter,
GitHub and Website lines appears exactly when the corresponding field holds
a truthy value. -/
theorem c10_profile_sections (u : UserProfile) (hne : u.isEmptyObj = false)
    (h : u.profNlFree) :
    ("## Details".data ∈ linesOf (format_user_profile u)) ∧
    ("## Links".data ∈ linesOf (format_user_profile u)) ∧
    ((linesOf (format_user_profile u)).any (fun l => pfx "Location: ".data l) = true ↔
      u.location.getD "" ≠ "") ∧
    ((linesOf (format_user_profile u)).any (fun l => pfx "Member since: ".data l) = true ↔
      u.joined_at.getD "" ≠ "") ∧
    ((linesOf (format_user_profile u)).any (fun l => pfx "Twitter: ".data l) = true ↔
      u.twitter_username.getD "" ≠ "") ∧
    ((linesOf (format_user_profile u)).any (fun l => pfx "GitHub: ".data l) = true ↔
      u.github_username.getD "" ≠ "") ∧
    ((linesOf (format_user_profile u)).any (fun l => pfx "Website: ".data l) = true ↔
      u.website_url.getD "" ≠ "") := by
  rw [profile_linesOf u hne h]
  refine ⟨?_, ?_, ?_, ?_, ?_, ?_, ?_⟩ <;>
    simp [profileLines, List.any_append, any_optLine, exists_line, pfx]

/-- C10 witness: a concrete profile with a location and without social
links. -/
theorem c10_profile_sections_witness :
    (({ username := some "alice", location := some "X" } : UserProfile).isEmptyObj
      = false) ∧
    ("## Details".data ∈ linesOf (format_user_profile
      ({ username := some "alice", location := some "X" } : UserProfile))) ∧
    ((linesOf (format_user_profile
      ({ username := some "alice", location := some "X" } : UserProfile))).any
        (fun l => pfx "Location: ".data l) = true) ∧
    ((linesOf (format_user_profile
      ({ username := some "alice", location := some "X" } : UserProfile))).any
        (fun l => pfx "Twitter: ".data l) = false) := by
  have h := c10_profile_sections
    ({ username := some "alice", location := some "X" } : UserProfile)
    (by decide) (by decide)
  refine ⟨by decide, h.1, h.2.2.1.mpr (by decide), ?_⟩
  cases hany : (linesOf (format_user_profile
      ({ username := some "alice", location := some "X" } : UserProfile))).any
        (fun l => pfx "Twitter: ".data l) with
  | false => rfl
  | true => exact absurd (h.2.2.2.2.1.mp hany) (by decide)

/-- C10 counterexample: a name containing an embedded newline makes a
Location line appear although the location field is absent, refuting the
only-if direction as universally stated. -/
theorem c10_counterexample :
    (({ name := some "x\nLocation: injected" } : UserProfile).isEmptyObj = false) ∧
    (({ name := some "x\nLocation: injected" } : UserProfile).location = none) ∧
    ((linesOf (format_user_profile
      ({ name := some "x\nLocation: injected" } : UserProfile))).any
        (fun l => pfx "Location: ".data l) = true) := by
  exact ⟨by decide, rfl, by decide⟩

end DevTo
